import Mathlib

/-
Verification development for a Kubernetes-style Redis operator.

The controller is embedded shallowly: every external call (ensure-operations,
status updates, dynamic-client owner-reference manipulation, the informer
lookup) is represented by its outcome recorded in an `Env` structure, and each
controller function is a pure Lean function that threads the reconciled object
through and records the externally visible calls it makes in an effect trace.
The branching structure, the order of calls and the early returns follow the
Go source line by line.
-/

namespace RedisOperator

/-- Error values.  Go errors are opaque values; the controller only ever
constructs, wraps and propagates them, so strings suffice. -/
abbrev Err := String

/-- kutil verb returned by an ensure-operation
(`kutil.VerbCreated`, `kutil.VerbPatched`, `kutil.VerbUnchanged`). -/
inductive Verb
| created
| patched
| unchanged
deriving DecidableEq

/-- `api.DatabasePhase` values used by this controller
(the empty string, Provisioning, Ready, Halted; Terminating exists in the API
but is never written by the code under verification). -/
inductive Phase
| empty
| provisioning
| ready
| halted
| terminating
deriving DecidableEq

/-- `kmapi.ConditionStatus`: a tri-state condition status. -/
inductive CStatus
| ctrue
| cfalse
| cunknown
deriving DecidableEq

/-- One entry of `status.conditions`. -/
structure Condition where
  type : String
  status : CStatus
deriving DecidableEq

/-- `kmapi.HasCondition`: some condition with the given type exists. -/
def hasCondition (cs : List Condition) (t : String) : Bool :=
  cs.any (fun c => c.type == t)

/-- `kmapi.IsConditionTrue`: some condition with the given type has status True. -/
def isConditionTrue (cs : List Condition) (t : String) : Bool :=
  cs.any (fun c => c.type == t && c.status == CStatus.ctrue)

/-- `api.DatabaseProvisioned` condition type. -/
def databaseProvisioned : String := "Provisioned"

/-- `api.DatabaseDataRestored` condition type. -/
def databaseDataRestored : String := "DataRestored"

/-- `api.DatabasePaused` condition type. -/
def databasePaused : String := "Paused"

/-- `kubedb.GroupName`, used as the finalizer token. -/
def groupName : String := "kubedb.com"

/-- `api.RedisMode`. -/
inductive RedisMode
| standalone
| cluster
| sentinel
deriving DecidableEq

/-- `api.TerminationPolicy`. -/
inductive TerminationPolicy
| doNotTerminate
| halt
| delete
| wipeOut
deriving DecidableEq

/-- `spec.init`: only the `WaitForInitialRestore` field is consulted here. -/
structure InitSpec where
  waitForInitialRestore : Bool
deriving DecidableEq

/-- The part of the Redis spec this controller reads.  `tls` stands for
`Spec.TLS != nil` and `monitor` for `Spec.Monitor != nil`. -/
structure RedisSpec where
  mode : RedisMode
  halted : Bool
  terminationPolicy : TerminationPolicy
  tls : Bool
  init : Option InitSpec
  monitor : Bool
deriving DecidableEq

/-- Object metadata: generation, deletion timestamp and finalizer list. -/
structure ObjectMeta where
  name : String
  nspace : String
  generation : Nat
  deletionTimestamp : Option Nat
  finalizers : List String
deriving DecidableEq

/-- The status sub-resource. -/
structure RedisStatus where
  phase : Phase
  observedGeneration : Nat
  conditions : List Condition
deriving DecidableEq

/-- The Managed Resource. -/
structure Redis where
  meta : ObjectMeta
  spec : RedisSpec
  status : RedisStatus
deriving DecidableEq

/-- `core_util.HasFinalizer`. -/
def hasFinalizer (m : ObjectMeta) (f : String) : Bool :=
  m.finalizers.contains f

/-- `core_util.AddFinalizer` (idempotent append). -/
def addFinalizer (m : ObjectMeta) (f : String) : ObjectMeta :=
  if m.finalizers.contains f then m
  else { m with finalizers := m.finalizers ++ [f] }

/-- `core_util.RemoveFinalizer`. -/
def removeFinalizer (m : ObjectMeta) (f : String) : ObjectMeta :=
  { m with finalizers := m.finalizers.filter (fun x => x ≠ f) }

/-- Certificate aliases checked by the TLS gate
(`api.RedisServerCert`, `api.RedisClientCert`, `api.RedisMetricsExporterCert`). -/
inductive CertAlias
| server
| client
| metricsExporter
deriving DecidableEq

/-- The three certificate secrets whose existence `create` checks via
`dynamic_util.ResourcesExists`, in source order. -/
def redisCertAliases : List CertAlias :=
  [CertAlias.server, CertAlias.client, CertAlias.metricsExporter]

/-- Externally visible calls made by the controller, recorded in order. -/
inductive Effect
| validateSpec
| eventWarning (reason : String)
| eventNormal (msg : String)
| updateStatus (phase : Phase) (setsObservedGeneration : Bool)
| createGoverningService
| ensureRedisConfig
| ensureRBAC
| ensureService
| checkCertSecrets (aliases : List CertAlias)
| ensureRedisNodes
| ensureAppBinding
| ensureStatsService
| manageMonitor
| haltDatabase
| waitUntilPaused
| wipeOutSecrets (names : List String)
| removeSecretOwnerRefs (names : List String)
| ensurePVCOwnerRefs
| removePVCOwnerRefs
| deleteMonitor
| patchAddFinalizer
| patchRemoveFinalizer
deriving DecidableEq

/-- `eventer.EventReasonInvalid` (external constant, value symbolic). -/
def eventReasonInvalid : String := "Invalid"

/-- `eventer.EventReasonSuccessful` (external constant, value symbolic). -/
def eventReasonSuccessful : String := "Successful"

/-- `eventer.EventReasonFailedToCreate` (external constant, value symbolic). -/
def eventReasonFailedToCreate : String := "FailedToCreate"

/-- `eventer.EventReasonFailedToUpdate` (external constant, value symbolic). -/
def eventReasonFailedToUpdate : String := "FailedToUpdate"

/-- Reason used by `pushFailureEvent` (apimachinery helper, not in the two
source files; it records a Warning event on the object). -/
def eventReasonFailed : String := "Failed"

/-- Outcomes of every external call a reconciliation pass may perform.
`redisSecrets` is the list returned by `c.GetRedisSecrets` (a controller
helper outside these files), and `getByKey` the informer-cache lookup result:
an error, absence, or the cached object. -/
structure Env where
  validateRedis : Except Err Unit
  updateStatusProvisioning : Except Err Unit
  createGoverningService : Except Err Unit
  ensureRedisConfig : Except Err Unit
  ensureRBACStuff : Except Err Unit
  ensureService : Except Err Verb
  certSecretsExist : Except Err Bool
  ensureRedisNodes : Except Err Verb
  ensureAppBinding : Except Err Unit
  updateStatusReady : Except Err Unit
  ensureStatsService : Except Err Unit
  manageMonitor : Except Err Unit
  haltDatabase : Except Err Unit
  waitUntilPaused : Except Err Unit
  updateStatusHalted : Except Err Unit
  wipeOutDatabase : Except Err Unit
  removeSecretOwnerRefs : Except Err Unit
  ensurePVCOwnerRefs : Except Err Unit
  removePVCOwnerRefs : Except Err Unit
  deleteMonitor : Except Err Unit
  patchAddFinalizer : Except Err Unit
  patchRemoveFinalizer : Except Err Unit
  redisSecrets : List String
  getByKey : Except Err (Option Redis)

/-- Result of one controller function: the Go return value, the object as the
store now holds it, and the trace of external calls. -/
structure StepOut where
  res : Except Err Unit
  obj : Redis
  trace : List Effect

/-- Result of one `runRedis` pass (the object may not exist in the cache). -/
structure RunOut where
  res : Except Err Unit
  obj : Option Redis
  trace : List Effect

/-- Status mutation of the first `UpdateRedisStatus` call:
`in.Phase = api.DatabasePhaseProvisioning` (observedGeneration untouched). -/
def setPhase (rd : Redis) (p : Phase) : Redis :=
  { rd with status := { rd.status with phase := p } }

/-- Status mutation of the Ready update: `in.Phase = Ready`,
`in.ObservedGeneration = redis.Generation`. -/
def setReadyStatus (rd : Redis) : Redis :=
  { rd with status := { rd.status with
      phase := Phase.ready
      observedGeneration := rd.meta.generation } }

/-- Status mutation of the Halted update: `in.Phase = Halted`,
`in.ObservedGeneration = db.Generation`. -/
def setHaltedStatus (rd : Redis) : Redis :=
  { rd with status := { rd.status with
      phase := Phase.halted
      observedGeneration := rd.meta.generation } }

/-- The wait-for-initial-restore gate of `create`:
`Spec.Init != nil && Spec.Init.WaitForInitialRestore` and neither the
"Provisioned" condition exists nor "DataRestored" is true. -/
def waitingForRestore (rd : Redis) : Bool :=
  match rd.spec.init with
  | some i =>
      i.waitForInitialRestore
        && !(hasCondition rd.status.conditions databaseProvisioned)
        && !(isConditionTrue rd.status.conditions databaseDataRestored)
  | none => false

/-- Tail of `create`: `ensureStatsService` then `manageMonitor`; a failure of
either is recorded as a Warning event and swallowed (`return nil`). -/
def createMonitoring (env : Env) (rd : Redis) : StepOut :=
  match env.ensureStatsService with
  | Except.error _ =>
      ⟨Except.ok (), rd,
        [Effect.ensureStatsService, Effect.eventWarning eventReasonFailedToCreate]⟩
  | Except.ok _ =>
      match env.manageMonitor with
      | Except.error _ =>
          ⟨Except.ok (), rd,
            [Effect.ensureStatsService, Effect.manageMonitor,
             Effect.eventWarning eventReasonFailedToCreate]⟩
      | Except.ok _ =>
          ⟨Except.ok (), rd, [Effect.ensureStatsService, Effect.manageMonitor]⟩

/-- `create` from the wait-for-initial-restore gate on: suspend while waiting,
otherwise patch status to Ready (warning event + error on failure) and run the
monitoring tail. -/
def createFinalize (env : Env) (rd : Redis) : StepOut :=
  if waitingForRestore rd then
    ⟨Except.ok (), rd, []⟩
  else
    match env.updateStatusReady with
    | Except.error e =>
        ⟨Except.error e, rd,
          [Effect.updateStatus Phase.ready true,
           Effect.eventWarning eventReasonFailedToUpdate]⟩
    | Except.ok _ =>
        let m := createMonitoring env (setReadyStatus rd)
        ⟨m.res, m.obj, Effect.updateStatus Phase.ready true :: m.trace⟩

/-- `create` from the StatefulSet step on: ensure the Redis nodes (verb₂),
emit the created/patched event from (verb₁, verb₂), ensure the app binding,
then finalize. -/
def createFromNodes (env : Env) (vt1 : Verb) (rd : Redis) : StepOut :=
  match env.ensureRedisNodes with
  | Except.error e => ⟨Except.error e, rd, [Effect.ensureRedisNodes]⟩
  | Except.ok vt2 =>
      let ev : List Effect :=
        if vt1 = Verb.created ∧ vt2 = Verb.created then
          [Effect.eventNormal "Successfully created Redis"]
        else if vt1 = Verb.patched ∨ vt2 = Verb.patched then
          [Effect.eventNormal "Successfully patched Redis"]
        else []
      match env.ensureAppBinding with
      | Except.error e =>
          ⟨Except.error e, rd,
            Effect.ensureRedisNodes :: ev ++ [Effect.ensureAppBinding]⟩
      | Except.ok _ =>
          let f := createFinalize env rd
          ⟨f.res, f.obj,
            Effect.ensureRedisNodes :: ev ++ [Effect.ensureAppBinding] ++ f.trace⟩

/-- `create` from the TLS gate on: when TLS is configured, check the three
certificate secrets; a store error is returned, absence suspends the pass
(`return nil`), presence falls through to the StatefulSet step. -/
def createFromTLS (env : Env) (vt1 : Verb) (rd : Redis) : StepOut :=
  if rd.spec.tls then
    match env.certSecretsExist with
    | Except.error e =>
        ⟨Except.error e, rd, [Effect.checkCertSecrets redisCertAliases]⟩
    | Except.ok false =>
        ⟨Except.ok (), rd, [Effect.checkCertSecrets redisCertAliases]⟩
    | Except.ok true =>
        let n := createFromNodes env vt1 rd
        ⟨n.res, n.obj, Effect.checkCertSecrets redisCertAliases :: n.trace⟩
  else
    createFromNodes env vt1 rd

/-- `create` from the RBAC step on: ensure RBAC, ensure the database service
(recording verb₁), then the TLS gate. -/
def createFromConfig (env : Env) (rd : Redis) : StepOut :=
  match env.ensureRBACStuff with
  | Except.error e => ⟨Except.error e, rd, [Effect.ensureRBAC]⟩
  | Except.ok _ =>
      match env.ensureService with
      | Except.error e =>
          ⟨Except.error e, rd, [Effect.ensureRBAC, Effect.ensureService]⟩
      | Except.ok vt1 =>
          let t := createFromTLS env vt1 rd
          ⟨t.res, t.obj, Effect.ensureRBAC :: Effect.ensureService :: t.trace⟩

/-- `create` from the governing-service step on: create the governing service,
ensure the Redis config (cluster mode only), then the rest. -/
def createFromGoverning (env : Env) (rd : Redis) : StepOut :=
  match env.createGoverningService with
  | Except.error e => ⟨Except.error e, rd, [Effect.createGoverningService]⟩
  | Except.ok _ =>
      if rd.spec.mode = RedisMode.cluster then
        match env.ensureRedisConfig with
        | Except.error e =>
            ⟨Except.error e, rd,
              [Effect.createGoverningService, Effect.ensureRedisConfig]⟩
        | Except.ok _ =>
            let k := createFromConfig env rd
            ⟨k.res, k.obj,
              Effect.createGoverningService :: Effect.ensureRedisConfig :: k.trace⟩
      else
        let k := createFromConfig env rd
        ⟨k.res, k.obj, Effect.createGoverningService :: k.trace⟩

/-- `Controller.create`: validate the spec (user errors are evented and
swallowed), set phase Provisioning on first observation, then the converge
sequence. -/
def create (env : Env) (rd : Redis) : StepOut :=
  match env.validateRedis with
  | Except.error _ =>
      ⟨Except.ok (), rd,
        [Effect.validateSpec, Effect.eventWarning eventReasonInvalid]⟩
  | Except.ok _ =>
      if rd.status.phase = Phase.empty then
        match env.updateStatusProvisioning with
        | Except.error e =>
            ⟨Except.error e, rd,
              [Effect.validateSpec, Effect.updateStatus Phase.provisioning false]⟩
        | Except.ok _ =>
            let g := createFromGoverning env (setPhase rd Phase.provisioning)
            ⟨g.res, g.obj,
              Effect.validateSpec ::
                Effect.updateStatus Phase.provisioning false :: g.trace⟩
      else
        let g := createFromGoverning env rd
        ⟨g.res, g.obj, Effect.validateSpec :: g.trace⟩

/-- The validation error built by `Controller.halt`. -/
def haltValidationErr : Err :=
  "can\x27t halt db. \x27spec.terminationPolicy\x27 is not \x27Halt\x27"

/-- `Controller.halt`: reject when halted with a non-Halt termination policy,
otherwise halt the database, wait until paused, and patch status to Halted. -/
def halt (env : Env) (db : Redis) : StepOut :=
  if db.spec.halted = true ∧ db.spec.terminationPolicy ≠ TerminationPolicy.halt then
    ⟨Except.error haltValidationErr, db, []⟩
  else
    match env.haltDatabase with
    | Except.error e => ⟨Except.error e, db, [Effect.haltDatabase]⟩
    | Except.ok _ =>
        match env.waitUntilPaused with
        | Except.error e =>
            ⟨Except.error e, db, [Effect.haltDatabase, Effect.waitUntilPaused]⟩
        | Except.ok _ =>
            match env.updateStatusHalted with
            | Except.error e =>
                ⟨Except.error e, db,
                  [Effect.haltDatabase, Effect.waitUntilPaused,
                   Effect.updateStatus Phase.halted true]⟩
            | Except.ok _ =>
                ⟨Except.ok (), setHaltedStatus db,
                  [Effect.haltDatabase, Effect.waitUntilPaused,
                   Effect.updateStatus Phase.halted true]⟩

/-- `Controller.setOwnerReferenceToOffshoots`: under WipeOut, wipe out the
database secrets (`wipeOutDatabase`, which deletes the named secrets); under
any other (non-Halt) policy, remove the secrets' owner references; in both
cases then ensure an owner reference on all PVCs matching the offshoot
selector so the store cascades their deletion. -/
def setOwnerReferenceToOffshoots (env : Env) (rd : Redis) : StepOut :=
  if rd.spec.terminationPolicy = TerminationPolicy.wipeOut then
    match env.wipeOutDatabase with
    | Except.error e =>
        ⟨Except.error ("error in wiping out database.: " ++ e), rd,
          [Effect.wipeOutSecrets env.redisSecrets]⟩
    | Except.ok _ =>
        match env.ensurePVCOwnerRefs with
        | Except.error e =>
            ⟨Except.error e, rd,
              [Effect.wipeOutSecrets env.redisSecrets, Effect.ensurePVCOwnerRefs]⟩
        | Except.ok _ =>
            ⟨Except.ok (), rd,
              [Effect.wipeOutSecrets env.redisSecrets, Effect.ensurePVCOwnerRefs]⟩
  else
    match env.removeSecretOwnerRefs with
    | Except.error e =>
        ⟨Except.error e, rd, [Effect.removeSecretOwnerRefs env.redisSecrets]⟩
    | Except.ok _ =>
        match env.ensurePVCOwnerRefs with
        | Except.error e =>
            ⟨Except.error e, rd,
              [Effect.removeSecretOwnerRefs env.redisSecrets,
               Effect.ensurePVCOwnerRefs]⟩
        | Except.ok _ =>
            ⟨Except.ok (), rd,
              [Effect.removeSecretOwnerRefs env.redisSecrets,
               Effect.ensurePVCOwnerRefs]⟩

/-- `Controller.removeOwnerReferenceFromOffshoots`: remove owner references
from the named secrets and from PVCs matching the offshoot selector. -/
def removeOwnerReferenceFromOffshoots (env : Env) (rd : Redis) : StepOut :=
  match env.removeSecretOwnerRefs with
  | Except.error e =>
      ⟨Except.error e, rd, [Effect.removeSecretOwnerRefs env.redisSecrets]⟩
  | Except.ok _ =>
      match env.removePVCOwnerRefs with
      | Except.error e =>
          ⟨Except.error e, rd,
            [Effect.removeSecretOwnerRefs env.redisSecrets,
             Effect.removePVCOwnerRefs]⟩
      | Except.ok _ =>
          ⟨Except.ok (), rd,
            [Effect.removeSecretOwnerRefs env.redisSecrets,
             Effect.removePVCOwnerRefs]⟩

/-- `Controller.terminate`: branch on the termination policy, then delete the
monitoring hook if one is configured — a monitor-deletion failure is logged
and swallowed (`return nil`). -/
def terminate (env : Env) (rd : Redis) : StepOut :=
  let s :=
    if rd.spec.terminationPolicy = TerminationPolicy.halt then
      removeOwnerReferenceFromOffshoots env rd
    else
      setOwnerReferenceToOffshoots env rd
  match s.res with
  | Except.error e => ⟨Except.error e, s.obj, s.trace⟩
  | Except.ok _ =>
      if rd.spec.monitor then
        match env.deleteMonitor with
        | Except.error _ => ⟨Except.ok (), s.obj, s.trace ++ [Effect.deleteMonitor]⟩
        | Except.ok _ => ⟨Except.ok (), s.obj, s.trace ++ [Effect.deleteMonitor]⟩
      else
        ⟨Except.ok (), s.obj, s.trace⟩

/-- `Controller.runRedis`: one work-queue pass.  Fetch the object from the
informer cache; absent objects are a clean no-op.  With a deletion timestamp
and the finalizer present, run `terminate` and, only on its success, patch the
finalizer away; with a deletion timestamp and no finalizer, do nothing.
Otherwise patch the finalizer in, skip when the "Paused" condition is true,
and run `halt` or `create` according to `spec.halted`, pushing a failure event
and returning the error when either fails. -/
def runRedis (env : Env) (_key : String) : RunOut :=
  match env.getByKey with
  | Except.error e => ⟨Except.error e, none, []⟩
  | Except.ok none => ⟨Except.ok (), none, []⟩
  | Except.ok (some redis) =>
      if redis.meta.deletionTimestamp.isSome then
        if hasFinalizer redis.meta groupName then
          let t := terminate env redis
          match t.res with
          | Except.error e => ⟨Except.error e, some t.obj, t.trace⟩
          | Except.ok _ =>
              match env.patchRemoveFinalizer with
              | Except.error e =>
                  ⟨Except.error e, some t.obj,
                    t.trace ++ [Effect.patchRemoveFinalizer]⟩
              | Except.ok _ =>
                  ⟨Except.ok (),
                    some { t.obj with meta := removeFinalizer t.obj.meta groupName },
                    t.trace ++ [Effect.patchRemoveFinalizer]⟩
        else
          ⟨Except.ok (), some redis, []⟩
      else
        match env.patchAddFinalizer with
        | Except.error e => ⟨Except.error e, some redis, [Effect.patchAddFinalizer]⟩
        | Except.ok _ =>
            let redis1 := { redis with meta := addFinalizer redis.meta groupName }
            if isConditionTrue redis1.status.conditions databasePaused then
              ⟨Except.ok (), some redis1, [Effect.patchAddFinalizer]⟩
            else
              if redis1.spec.halted then
                let h := halt env redis1
                match h.res with
                | Except.error e =>
                    ⟨Except.error e, some h.obj,
                      Effect.patchAddFinalizer ::
                        h.trace ++ [Effect.eventWarning eventReasonFailed]⟩
                | Except.ok _ =>
                    ⟨Except.ok (), some h.obj, Effect.patchAddFinalizer :: h.trace⟩
              else
                let k := create env redis1
                match k.res with
                | Except.error e =>
                    ⟨Except.error e, some k.obj,
                      Effect.patchAddFinalizer ::
                        k.trace ++ [Effect.eventWarning eventReasonFailed]⟩
                | Except.ok _ =>
                    ⟨Except.ok (), some k.obj, Effect.patchAddFinalizer :: k.trace⟩

/-- Modelled from the spec: the work queue (an external library,
`kmodules.xyz/client-go/tools/queue`, not under src/) retries a key exactly
when the reconcile handler returns an error — §7: transient errors are
"retried via the queue\x27s bounded exponential backoff"; a nil return drops
the key. -/
def queueRetries (res : Except Err Unit) : Bool :=
  match res with
  | Except.error _ => true
  | Except.ok _ => false

/-- A secret as the secret watcher sees it. -/
structure Secret where
  labels : List (String × String)
deriving DecidableEq

/-- An object delivered to an event handler (`interface\x7b\x7d` in Go): the
type assertion `obj.(*core.Secret)` succeeds only on the `secret` arm. -/
inductive RawObj
| secret (s : Secret)
| other
deriving DecidableEq

/-- Operations pushed to the work queue by a watch handler. -/
inductive QueueOp
| enqueue (key : String)
deriving DecidableEq

/-- `AddFunc` of `initSecretWatcher`: recover the owning Redis key via
`c.RedisForSecret` (controller helper outside these files, passed abstractly)
and enqueue it when non-empty. -/
def secretAddHandler (redisForSecret : Secret → String) (obj : RawObj) :
    List QueueOp :=
  match obj with
  | RawObj.secret s =>
      if redisForSecret s ≠ "" then [QueueOp.enqueue (redisForSecret s)] else []
  | RawObj.other => []

/-- `UpdateFunc` of `initSecretWatcher`: same as add, applied to the new
object. -/
def secretUpdateHandler (redisForSecret : Secret → String)
    (_oldObj newObj : RawObj) : List QueueOp :=
  match newObj with
  | RawObj.secret s =>
      if redisForSecret s ≠ "" then [QueueOp.enqueue (redisForSecret s)] else []
  | RawObj.other => []

/-- `DeleteFunc` of `initSecretWatcher`: an empty body — secret deletions are
intentionally ignored. -/
def secretDeleteHandler (_obj : RawObj) : List QueueOp := []

/-- The phase-transition set claimed by the spec (§3 invariants), written from
the spec\x27s words for comparison with the code:
\x7bProvisioning → Ready\x7d, \x7bany → Halted\x7d, \x7bany → Terminating\x7d,
plus staying unchanged. -/
def specClaimedPhaseTransition (old new : Phase) : Bool :=
  old == new
    || (old == Phase.provisioning && new == Phase.ready)
    || new == Phase.halted
    || new == Phase.terminating

/-- The phase transitions one `runRedis` pass can actually perform:
unchanged, first observation (empty → Provisioning), any → Ready (the create
sequence patches Ready also from Halted on resume), or any → Halted. -/
def phaseTransitionAllowed (old new : Phase) : Bool :=
  old == new
    || (old == Phase.empty && new == Phase.provisioning)
    || new == Phase.ready
    || new == Phase.halted

/-- Baseline metadata for concrete runs. -/
def metaW : ObjectMeta :=
  { name := "demo", nspace := "default", generation := 7,
    deletionTimestamp := none, finalizers := [] }

/-- Baseline spec for concrete runs. -/
def specW : RedisSpec :=
  { mode := RedisMode.standalone, halted := false,
    terminationPolicy := TerminationPolicy.delete, tls := false,
    init := none, monitor := false }

/-- Baseline status for concrete runs. -/
def statusW : RedisStatus :=
  { phase := Phase.empty, observedGeneration := 0, conditions := [] }

/-- Baseline object for concrete runs. -/
def rdW : Redis := ⟨metaW, specW, statusW⟩

/-- An environment where every external call succeeds and the informer cache
holds nothing. -/
def envOK : Env :=
  { validateRedis := Except.ok (), updateStatusProvisioning := Except.ok (),
    createGoverningService := Except.ok (), ensureRedisConfig := Except.ok (),
    ensureRBACStuff := Except.ok (), ensureService := Except.ok Verb.unchanged,
    certSecretsExist := Except.ok true,
    ensureRedisNodes := Except.ok Verb.unchanged,
    ensureAppBinding := Except.ok (), updateStatusReady := Except.ok (),
    ensureStatsService := Except.ok (), manageMonitor := Except.ok (),
    haltDatabase := Except.ok (), waitUntilPaused := Except.ok (),
    updateStatusHalted := Except.ok (), wipeOutDatabase := Except.ok (),
    removeSecretOwnerRefs := Except.ok (), ensurePVCOwnerRefs := Except.ok (),
    removePVCOwnerRefs := Except.ok (), deleteMonitor := Except.ok (),
    patchAddFinalizer := Except.ok (), patchRemoveFinalizer := Except.ok (),
    redisSecrets := ["demo-auth"], getByKey := Except.ok none }

/-- A deleted object (deletion timestamp set) that carries no finalizer. -/
def rdDeletedNoFin : Redis :=
  { rdW with meta := { metaW with deletionTimestamp := some 1 } }

/-- Environment whose cache holds `rdDeletedNoFin`. -/
def envDeletedNoFin : Env := { envOK with getByKey := Except.ok (some rdDeletedNoFin) }

/-- An object whose termination policy is Halt. -/
def rdPolicyHalt : Redis :=
  { rdW with spec := { specW with terminationPolicy := TerminationPolicy.halt } }

/-- An object with `spec.halted = true` but termination policy Delete. -/
def rdHaltedBadPolicy : Redis :=
  { rdW with spec := { specW with halted := true } }

/-- Environment whose cache holds `rdHaltedBadPolicy`. -/
def envHaltedBadPolicy : Env :=
  { envOK with getByKey := Except.ok (some rdHaltedBadPolicy) }

/-- An object with TLS configured. -/
def rdTLS : Redis := { rdW with spec := { specW with tls := true } }

/-- Environment where at least one of the certificate secrets is missing. -/
def envCertMissing : Env := { envOK with certSecretsExist := Except.ok false }

/-- An object that asks to wait for the initial restore (no conditions yet). -/
def rdInitWait : Redis :=
  { rdW with spec := { specW with init := some ⟨true⟩ } }

/-- Environment where spec validation fails with a user error. -/
def envBadSpec : Env := { envOK with validateRedis := Except.error "invalid spec" }

/-- Environment where the stats-service ensure-operation fails. -/
def envStatsErr : Env := { envOK with ensureStatsService := Except.error "stats down" }

/-- A halted-phase object whose spec no longer asks for halting (resume). -/
def rdPhaseHalted : Redis :=
  { rdW with status := { statusW with phase := Phase.halted, observedGeneration := 3 } }

/-- Environment whose cache holds `rdPhaseHalted`. -/
def envPhaseHalted : Env := { envOK with getByKey := Except.ok (some rdPhaseHalted) }

/-- The object `runRedis` leaves in the store after a full resume pass over
`rdPhaseHalted`: finalizer added, phase Ready, observedGeneration caught up. -/
def rdPhaseHaltedFinal : Redis :=
  { meta := { metaW with finalizers := [groupName] }
    spec := specW
    status := { phase := Phase.ready, observedGeneration := 7, conditions := [] } }

/-- A deleted, finalizer-carrying object with monitoring configured. -/
def rdMonitorDeleted : Redis :=
  { rdW with
    meta := { metaW with deletionTimestamp := some 1, finalizers := [groupName] }
    spec := { specW with monitor := true } }

/-- Environment where the cache holds `rdMonitorDeleted` and deleting the
monitoring hook fails. -/
def envMonitorErr : Env :=
  { envOK with
    getByKey := Except.ok (some rdMonitorDeleted)
    deleteMonitor := Except.error "monitoring agent unreachable" }

/-- A key-recovery function for concrete secret-watcher runs. -/
def recoverW : Secret → String := fun _ => "default/demo"

/-- A concrete secret for the secret-watcher runs. -/
def secretW : Secret := ⟨[("app.kubernetes.io/instance", "demo")]⟩

/-! ## Helper lemmas -/

theorem setPhase_spec (rd : Redis) (p : Phase) : (setPhase rd p).spec = rd.spec := rfl

theorem setPhase_meta (rd : Redis) (p : Phase) : (setPhase rd p).meta = rd.meta := rfl

theorem setPhase_conditions (rd : Redis) (p : Phase) :
    (setPhase rd p).status.conditions = rd.status.conditions := rfl

theorem waitingForRestore_setPhase (rd : Redis) (p : Phase) :
    waitingForRestore (setPhase rd p) = waitingForRestore rd := rfl

/-- The owner-reference removal pass never touches the object itself. -/
theorem removeOwnerReferenceFromOffshoots_obj (env : Env) (rd : Redis) :
    (removeOwnerReferenceFromOffshoots env rd).obj = rd := by
  rcases hs : env.removeSecretOwnerRefs with e | u <;>
    rcases hp : env.removePVCOwnerRefs with e2 | u2 <;>
    simp [removeOwnerReferenceFromOffshoots, hs, hp]

/-- The owner-reference claiming pass never touches the object itself. -/
theorem setOwnerReferenceToOffshoots_obj (env : Env) (rd : Redis) :
    (setOwnerReferenceToOffshoots env rd).obj = rd := by
  by_cases hw : rd.spec.terminationPolicy = TerminationPolicy.wipeOut <;>
    rcases hwd : env.wipeOutDatabase with e | u <;>
    rcases hs : env.removeSecretOwnerRefs with e2 | u2 <;>
    rcases hp : env.ensurePVCOwnerRefs with e3 | u3 <;>
    simp [setOwnerReferenceToOffshoots, hw, hwd, hs, hp]

/-- `terminate` never touches the object itself. -/
theorem terminate_obj (env : Env) (rd : Redis) : (terminate env rd).obj = rd := by
  unfold terminate
  by_cases hpol : rd.spec.terminationPolicy = TerminationPolicy.halt <;>
    simp only [hpol, if_true, if_false, ite_true, ite_false]
  case pos =>
    rcases hres : (removeOwnerReferenceFromOffshoots env rd).res with e | u <;>
      simp [hres, removeOwnerReferenceFromOffshoots_obj] <;>
      rcases hm : rd.spec.monitor with _ | _ <;>
      rcases hd : env.deleteMonitor with e2 | u2 <;>
      simp [hm, hd, removeOwnerReferenceFromOffshoots_obj]
  case neg =>
    rcases hres : (setOwnerReferenceToOffshoots env rd).res with e | u <;>
      simp [hres, setOwnerReferenceToOffshoots_obj] <;>
      rcases hm : rd.spec.monitor with _ | _ <;>
      rcases hd : env.deleteMonitor with e2 | u2 <;>
      simp [hm, hd, setOwnerReferenceToOffshoots_obj]

/-- Every effect `terminate` records is one of the five termination-engine
calls. -/
theorem terminate_trace_shape (env : Env) (rd : Redis) :
    ∀ e ∈ (terminate env rd).trace,
      e = Effect.wipeOutSecrets env.redisSecrets ∨
      e = Effect.removeSecretOwnerRefs env.redisSecrets ∨
      e = Effect.ensurePVCOwnerRefs ∨
      e = Effect.removePVCOwnerRefs ∨
      e = Effect.deleteMonitor := by
  unfold terminate
  by_cases hpol : rd.spec.terminationPolicy = TerminationPolicy.halt <;>
    by_cases hw : rd.spec.terminationPolicy = TerminationPolicy.wipeOut <;>
    rcases hwd : env.wipeOutDatabase with e1 | u1 <;>
    rcases hs : env.removeSecretOwnerRefs with e2 | u2 <;>
    rcases hp : env.ensurePVCOwnerRefs with e3 | u3 <;>
    rcases hrp : env.removePVCOwnerRefs with e4 | u4 <;>
    rcases hm : rd.spec.monitor with _ | _ <;>
    rcases hd : env.deleteMonitor with e5 | u5 <;>
    simp [hpol, hw, removeOwnerReferenceFromOffshoots, setOwnerReferenceToOffshoots,
      hwd, hs, hp, hrp, hm, hd]

theorem setPhase_phase (rd : Redis) (p : Phase) : (setPhase rd p).status.phase = p := rfl

theorem setPhase_obsGen (rd : Redis) (p : Phase) :
    (setPhase rd p).status.observedGeneration = rd.status.observedGeneration := rfl

theorem setReadyStatus_phase (rd : Redis) :
    (setReadyStatus rd).status.phase = Phase.ready := rfl

theorem setReadyStatus_obsGen (rd : Redis) :
    (setReadyStatus rd).status.observedGeneration = rd.meta.generation := rfl

theorem setHaltedStatus_phase (rd : Redis) :
    (setHaltedStatus rd).status.phase = Phase.halted := rfl

/-- The monitoring tail always succeeds (failures are swallowed). -/
theorem createMonitoring_res (env : Env) (rd : Redis) :
    (createMonitoring env rd).res = Except.ok () := by
  rcases hs : env.ensureStatsService with e | u <;>
    rcases hm : env.manageMonitor with e2 | u2 <;>
    simp [createMonitoring, hs, hm]

/-- The monitoring tail never touches the object. -/
theorem createMonitoring_obj (env : Env) (rd : Redis) :
    (createMonitoring env rd).obj = rd := by
  rcases hs : env.ensureStatsService with e | u <;>
    rcases hm : env.manageMonitor with e2 | u2 <;>
    simp [createMonitoring, hs, hm]

/-! ## Claim theorems -/

/-- Claim C10: when the queue key names an object that is no longer in the
informer cache, `runRedis` returns success and performs no store write at
all, so the key is not requeued. -/
theorem runRedis_missing_object_noop (env : Env) (key : String)
    (h : env.getByKey = Except.ok none) :
    (runRedis env key).res = Except.ok () ∧
    (runRedis env key).trace = [] ∧
    queueRetries (runRedis env key).res = false := by
  simp [runRedis, h, queueRetries]

/-- Witness for C10: the all-success environment with an empty cache. -/
theorem runRedis_missing_object_noop_witness :
    (runRedis envOK "default/demo").res = Except.ok () ∧
    (runRedis envOK "default/demo").trace = [] ∧
    queueRetries (runRedis envOK "default/demo").res = false :=
  runRedis_missing_object_noop envOK "default/demo" rfl

/-- Claim C8: the secret watcher enqueues the recovered Managed Resource key
on every add and update event whose secret yields a non-empty key, enqueues
nothing when the key is empty, and its delete handler is a no-op. -/
theorem secret_watcher_enqueue_policy (recover : Secret → String)
    (s : Secret) (old : RawObj) :
    (recover s ≠ "" →
      secretAddHandler recover (RawObj.secret s) = [QueueOp.enqueue (recover s)] ∧
      secretUpdateHandler recover old (RawObj.secret s) =
        [QueueOp.enqueue (recover s)]) ∧
    (recover s = "" →
      secretAddHandler recover (RawObj.secret s) = [] ∧
      secretUpdateHandler recover old (RawObj.secret s) = []) ∧
    (∀ obj : RawObj, secretDeleteHandler obj = []) := by
  refine ⟨fun h => ?_, fun h => ?_, fun obj => rfl⟩ <;>
    simp [secretAddHandler, secretUpdateHandler, h]

/-- Witness for C8: a concrete secret whose key recovers to
"default/demo". -/
theorem secret_watcher_enqueue_policy_witness :
    secretAddHandler recoverW (RawObj.secret secretW) =
      [QueueOp.enqueue (recoverW secretW)] ∧
    secretUpdateHandler recoverW RawObj.other (RawObj.secret secretW) =
      [QueueOp.enqueue (recoverW secretW)] :=
  (secret_watcher_enqueue_policy recoverW secretW RawObj.other).1 (by decide)

/-- Claim C9: a monitor-deletion failure during `terminate` is logged and
swallowed — `terminate` still returns success, so `runRedis` goes on to patch
the finalizer away and termination is never blocked by the monitoring hook. -/
theorem terminate_monitor_failure_swallowed (env : Env) (rd : Redis)
    (hm : rd.spec.monitor = true)
    (em : Err) (hdm : env.deleteMonitor = Except.error em)
    (hw : env.wipeOutDatabase = Except.ok ())
    (hrs : env.removeSecretOwnerRefs = Except.ok ())
    (hep : env.ensurePVCOwnerRefs = Except.ok ())
    (hrp : env.removePVCOwnerRefs = Except.ok ()) :
    (terminate env rd).res = Except.ok () ∧
    Effect.deleteMonitor ∈ (terminate env rd).trace ∧
    (∀ key, env.getByKey = Except.ok (some rd) →
      rd.meta.deletionTimestamp.isSome = true →
      hasFinalizer rd.meta groupName = true →
      Effect.patchRemoveFinalizer ∈ (runRedis env key).trace) := by
  have hterm : (terminate env rd).res = Except.ok () ∧
      Effect.deleteMonitor ∈ (terminate env rd).trace := by
    unfold terminate
    by_cases hpol : rd.spec.terminationPolicy = TerminationPolicy.halt <;>
      by_cases hwp : rd.spec.terminationPolicy = TerminationPolicy.wipeOut <;>
      simp [hpol, hwp, removeOwnerReferenceFromOffshoots,
        setOwnerReferenceToOffshoots, hw, hrs, hep, hrp, hm, hdm]
  refine ⟨hterm.1, hterm.2, fun key hget hdel hfin => ?_⟩
  rw [runRedis, hget]
  simp only [hdel, if_true, hfin, ite_true]
  rw [hterm.1]
  rcases hpr : env.patchRemoveFinalizer with e | u <;> simp [hpr]

/-- Witness for C9: a deleted, monitored object whose monitoring hook cannot
be deleted; the pass still removes the finalizer. -/
theorem terminate_monitor_failure_swallowed_witness :
    (terminate envMonitorErr rdMonitorDeleted).res = Except.ok () ∧
    Effect.deleteMonitor ∈ (terminate envMonitorErr rdMonitorDeleted).trace ∧
    (∀ key, envMonitorErr.getByKey = Except.ok (some rdMonitorDeleted) →
      rdMonitorDeleted.meta.deletionTimestamp.isSome = true →
      hasFinalizer rdMonitorDeleted.meta groupName = true →
      Effect.patchRemoveFinalizer ∈ (runRedis envMonitorErr key).trace) :=
  terminate_monitor_failure_swallowed envMonitorErr rdMonitorDeleted rfl
    "monitoring agent unreachable" rfl rfl rfl rfl rfl

/-- Claim C3 counterexample: with `spec.halted = true` and termination policy
Delete, the halt validation error is returned by `runRedis` to the work
queue, which therefore retries the key — the claim says the error is not
retried. -/
theorem halt_error_is_requeued_counterexample :
    (runRedis envHaltedBadPolicy "default/demo").res =
      Except.error haltValidationErr ∧
    queueRetries (runRedis envHaltedBadPolicy "default/demo").res = true :=
  ⟨rfl, rfl⟩

/-- Claim C3 (amended): `halt` rejects with the hard validation error whenever
`spec.halted` is true and the termination policy is not Halt, for any phase
and before performing any halt step; `runRedis` returns that error to the
work queue, which retries it with backoff (it is not swallowed the way
spec-validation user errors are). -/
theorem halt_nonhalt_policy_rejected (env : Env) (db : Redis)
    (hh : db.spec.halted = true)
    (hp : db.spec.terminationPolicy ≠ TerminationPolicy.halt) :
    (halt env db).res = Except.error haltValidationErr ∧
    (halt env db).trace = [] ∧
    (∀ key, env.getByKey = Except.ok (some db) →
      db.meta.deletionTimestamp = none →
      env.patchAddFinalizer = Except.ok () →
      isConditionTrue db.status.conditions databasePaused = false →
      (runRedis env key).res = Except.error haltValidationErr ∧
      queueRetries (runRedis env key).res = true) := by
  have hhalt : halt env db = ⟨Except.error haltValidationErr, db, []⟩ := by
    rw [halt, if_pos ⟨hh, hp⟩]
  refine ⟨by rw [hhalt], by rw [hhalt], fun key hget hdel hpatch hpause => ?_⟩
  have hrun : (runRedis env key).res = Except.error haltValidationErr := by
    rw [runRedis, hget]
    simp only [hdel, Option.isSome_none, Bool.false_eq_true, if_false]
    rw [hpatch]
    simp only [hpause, Bool.false_eq_true, if_false, hh, ite_true]
    have hhalt1 : halt env { db with meta := addFinalizer db.meta groupName } =
        ⟨Except.error haltValidationErr,
          { db with meta := addFinalizer db.meta groupName }, []⟩ := by
      rw [halt, if_pos ⟨hh, hp⟩]
    rw [hhalt1]
  exact ⟨hrun, by rw [hrun]; rfl⟩

/-- Claim C2: `terminate` branches on the termination policy — under Halt it
removes owner references from the named secrets and the offshoot-selected
PVCs; under WipeOut it deletes the named secrets (wipe-out) and never merely
unlinks them; under Delete it removes the secrets\x27 owner references without
deleting them; both non-Halt branches then claim an owner reference on the
offshoot-selected PVCs, and differ from each other only in the secret step. -/
theorem terminate_policy_branches (env : Env) (rd : Redis) :
    (rd.spec.terminationPolicy = TerminationPolicy.halt →
      (terminate env rd).trace.head? =
        some (Effect.removeSecretOwnerRefs env.redisSecrets) ∧
      (env.removeSecretOwnerRefs = Except.ok () →
        Effect.removePVCOwnerRefs ∈ (terminate env rd).trace) ∧
      Effect.wipeOutSecrets env.redisSecrets ∉ (terminate env rd).trace ∧
      Effect.ensurePVCOwnerRefs ∉ (terminate env rd).trace) ∧
    (rd.spec.terminationPolicy = TerminationPolicy.wipeOut →
      (terminate env rd).trace.head? =
        some (Effect.wipeOutSecrets env.redisSecrets) ∧
      (env.wipeOutDatabase = Except.ok () →
        Effect.ensurePVCOwnerRefs ∈ (terminate env rd).trace) ∧
      Effect.removeSecretOwnerRefs env.redisSecrets ∉ (terminate env rd).trace) ∧
    (rd.spec.terminationPolicy = TerminationPolicy.delete →
      (terminate env rd).trace.head? =
        some (Effect.removeSecretOwnerRefs env.redisSecrets) ∧
      (env.removeSecretOwnerRefs = Except.ok () →
        Effect.ensurePVCOwnerRefs ∈ (terminate env rd).trace) ∧
      Effect.wipeOutSecrets env.redisSecrets ∉ (terminate env rd).trace) ∧
    (env.wipeOutDatabase = Except.ok () →
      env.removeSecretOwnerRefs = Except.ok () →
      (terminate env
        { rd with spec :=
          { rd.spec with terminationPolicy := TerminationPolicy.wipeOut } }).trace.tail =
      (terminate env
        { rd with spec :=
          { rd.spec with terminationPolicy := TerminationPolicy.delete } }).trace.tail ∧
      (terminate env
        { rd with spec :=
          { rd.spec with terminationPolicy := TerminationPolicy.wipeOut } }).res =
      (terminate env
        { rd with spec :=
          { rd.spec with terminationPolicy := TerminationPolicy.delete } }).res) := by
  refine ⟨fun h1 => ?_, fun h2 => ?_, fun h3 => ?_, fun hwok hsok => ?_⟩
  · rcases hs : env.removeSecretOwnerRefs with e | u <;>
      rcases hp : env.removePVCOwnerRefs with e2 | u2 <;>
      rcases hm : rd.spec.monitor with _ | _ <;>
      rcases hd : env.deleteMonitor with e3 | u3 <;>
      simp [terminate, h1, removeOwnerReferenceFromOffshoots, hs, hp, hm, hd]
  · rcases hw : env.wipeOutDatabase with e | u <;>
      rcases hp : env.ensurePVCOwnerRefs with e2 | u2 <;>
      rcases hm : rd.spec.monitor with _ | _ <;>
      rcases hd : env.deleteMonitor with e3 | u3 <;>
      simp [terminate, h2, setOwnerReferenceToOffshoots, hw, hp, hm, hd]
  · rcases hs : env.removeSecretOwnerRefs with e | u <;>
      rcases hp : env.ensurePVCOwnerRefs with e2 | u2 <;>
      rcases hm : rd.spec.monitor with _ | _ <;>
      rcases hd : env.deleteMonitor with e3 | u3 <;>
      simp [terminate, h3, setOwnerReferenceToOffshoots, hs, hp, hm, hd]
  · rcases hp : env.ensurePVCOwnerRefs with e2 | u2 <;>
      rcases hm : rd.spec.monitor with _ | _ <;>
      rcases hd : env.deleteMonitor with e3 | u3 <;>
      simp [terminate, setOwnerReferenceToOffshoots, hwok, hsok, hp, hm, hd]

/-- Witness for C2: under policy Halt with the all-success environment, no
secret is wiped out and no PVC ownership is claimed. -/
theorem terminate_policy_branches_witness :
    (terminate envOK rdPolicyHalt).trace.head? =
      some (Effect.removeSecretOwnerRefs envOK.redisSecrets) ∧
    (envOK.removeSecretOwnerRefs = Except.ok () →
      Effect.removePVCOwnerRefs ∈ (terminate envOK rdPolicyHalt).trace) ∧
    Effect.wipeOutSecrets envOK.redisSecrets ∉ (terminate envOK rdPolicyHalt).trace ∧
    Effect.ensurePVCOwnerRefs ∉ (terminate envOK rdPolicyHalt).trace :=
  (terminate_policy_branches envOK rdPolicyHalt).1 rfl

/-- Claim C4: with TLS configured and at least one of the three certificate
secrets missing, an otherwise-successful create pass returns success, never
invokes the StatefulSet ensure-operation, never patches phase to Ready, and
leaves the phase at Provisioning. -/
theorem create_tls_missing_certs (env : Env) (rd : Redis)
    (hv : env.validateRedis = Except.ok ())
    (hprov : env.updateStatusProvisioning = Except.ok ())
    (hg : env.createGoverningService = Except.ok ())
    (hc : env.ensureRedisConfig = Except.ok ())
    (hr : env.ensureRBACStuff = Except.ok ())
    (hsv : ∃ v, env.ensureService = Except.ok v)
    (htls : rd.spec.tls = true)
    (hcert : env.certSecretsExist = Except.ok false)
    (hph : rd.status.phase = Phase.empty ∨ rd.status.phase = Phase.provisioning) :
    (create env rd).res = Except.ok () ∧
    Effect.ensureRedisNodes ∉ (create env rd).trace ∧
    (∀ b, Effect.updateStatus Phase.ready b ∉ (create env rd).trace) ∧
    (create env rd).obj.status.phase = Phase.provisioning := by
  obtain ⟨vt1, hsv⟩ := hsv
  rcases hph with hph | hph <;>
    by_cases hmode : rd.spec.mode = RedisMode.cluster <;>
    simp [create, createFromGoverning, createFromConfig, createFromTLS,
      hv, hprov, hg, hc, hr, hsv, hcert, hph, hmode,
      setPhase_spec, setPhase_phase, setPhase_conditions, htls]

/-- Witness for C4: the all-success environment with a missing certificate
secret and a TLS-enabled object. -/
theorem create_tls_missing_certs_witness :
    (create envCertMissing rdTLS).res = Except.ok () ∧
    Effect.ensureRedisNodes ∉ (create envCertMissing rdTLS).trace ∧
    (∀ b, Effect.updateStatus Phase.ready b ∉ (create envCertMissing rdTLS).trace) ∧
    (create envCertMissing rdTLS).obj.status.phase = Phase.provisioning :=
  create_tls_missing_certs envCertMissing rdTLS rfl rfl rfl rfl rfl
    ⟨Verb.unchanged, rfl⟩ rfl rfl (Or.inl rfl)

/-- Claim C5: with `waitForInitialRestore = true`, while neither the
"Provisioned" condition exists nor "DataRestored" is true, an otherwise
successful create pass returns success before patching status and the phase
stays at Provisioning; once "DataRestored" is True the pass patches phase to
Ready and observedGeneration to the current generation. -/
theorem create_wait_initial_restore (env : Env) (rd : Redis)
    (hv : env.validateRedis = Except.ok ())
    (hprov : env.updateStatusProvisioning = Except.ok ())
    (hg : env.createGoverningService = Except.ok ())
    (hc : env.ensureRedisConfig = Except.ok ())
    (hr : env.ensureRBACStuff = Except.ok ())
    (hsv : ∃ v, env.ensureService = Except.ok v)
    (hcert : env.certSecretsExist = Except.ok true)
    (hn : ∃ v, env.ensureRedisNodes = Except.ok v)
    (hab : env.ensureAppBinding = Except.ok ())
    (hready : env.updateStatusReady = Except.ok ())
    (hst : env.ensureStatsService = Except.ok ())
    (hmon : env.manageMonitor = Except.ok ())
    (hinit : rd.spec.init = some ⟨true⟩) :
    ((hasCondition rd.status.conditions databaseProvisioned = false ∧
      isConditionTrue rd.status.conditions databaseDataRestored = false) →
      (create env rd).res = Except.ok () ∧
      (∀ b, Effect.updateStatus Phase.ready b ∉ (create env rd).trace) ∧
      (create env rd).obj.status.phase =
        (if rd.status.phase = Phase.empty then Phase.provisioning
         else rd.status.phase)) ∧
    (isConditionTrue rd.status.conditions databaseDataRestored = true →
      (create env rd).res = Except.ok () ∧
      Effect.updateStatus Phase.ready true ∈ (create env rd).trace ∧
      (create env rd).obj.status.phase = Phase.ready ∧
      (create env rd).obj.status.observedGeneration = rd.meta.generation) := by
  obtain ⟨vt1, hsv⟩ := hsv
  obtain ⟨vt2, hn⟩ := hn
  constructor
  · rintro ⟨hncp, hncd⟩
    have hwait : waitingForRestore rd = true := by
      simp [waitingForRestore, hinit, hncp, hncd]
    by_cases hph : rd.status.phase = Phase.empty <;>
      by_cases hmode : rd.spec.mode = RedisMode.cluster <;>
      by_cases htls : rd.spec.tls = true <;>
      simp [create, createFromGoverning, createFromConfig, createFromTLS,
        createFromNodes, createFinalize, hv, hprov, hg, hc, hr, hsv, hcert, hn,
        hab, hwait, hph, hmode, htls, waitingForRestore_setPhase,
        setPhase_spec, setPhase_phase, setPhase_conditions] <;>
      split <;> simp
  · intro hd
    have hwait : waitingForRestore rd = false := by
      simp [waitingForRestore, hinit, hd]
    by_cases hph : rd.status.phase = Phase.empty <;>
      by_cases hmode : rd.spec.mode = RedisMode.cluster <;>
      by_cases htls : rd.spec.tls = true <;>
      simp [create, createFromGoverning, createFromConfig, createFromTLS,
        createFromNodes, createFinalize, hv, hprov, hg, hc, hr, hsv, hcert, hn,
        hab, hready, hwait, hph, hmode, htls, waitingForRestore_setPhase,
        setPhase_spec, setPhase_phase, setPhase_conditions, setPhase_meta,
        createMonitoring_res, createMonitoring_obj,
        setReadyStatus_phase, setReadyStatus_obsGen]

/-- Witness for C5: a wait-for-restore object with no conditions in the
all-success environment stays un-Ready. -/
theorem create_wait_initial_restore_witness :
    (create envOK rdInitWait).res = Except.ok () ∧
    (∀ b, Effect.updateStatus Phase.ready b ∉ (create envOK rdInitWait).trace) ∧
    (create envOK rdInitWait).obj.status.phase =
      (if rdInitWait.status.phase = Phase.empty then Phase.provisioning
       else rdInitWait.status.phase) :=
  (create_wait_initial_restore envOK rdInitWait rfl rfl rfl rfl rfl
    ⟨Verb.unchanged, rfl⟩ rfl ⟨Verb.unchanged, rfl⟩ rfl rfl rfl rfl rfl).1
    ⟨rfl, rfl⟩

/-- Witness for C3\x27s amended theorem: the concrete halted object with
policy Delete. -/
theorem halt_nonhalt_policy_rejected_witness :
    (halt envHaltedBadPolicy rdHaltedBadPolicy).res =
      Except.error haltValidationErr ∧
    (halt envHaltedBadPolicy rdHaltedBadPolicy).trace = [] ∧
    (∀ key, envHaltedBadPolicy.getByKey = Except.ok (some rdHaltedBadPolicy) →
      rdHaltedBadPolicy.meta.deletionTimestamp = none →
      envHaltedBadPolicy.patchAddFinalizer = Except.ok () →
      isConditionTrue rdHaltedBadPolicy.status.conditions databasePaused = false →
      (runRedis envHaltedBadPolicy key).res = Except.error haltValidationErr ∧
      queueRetries (runRedis envHaltedBadPolicy key).res = true) :=
  halt_nonhalt_policy_rejected envHaltedBadPolicy rdHaltedBadPolicy rfl
    (by decide)

/-- Claim C6: the create sequence distinguishes error classes — a
spec-validation error is surfaced as a Warning event and swallowed; errors of
the governing-service, config, RBAC, service, StatefulSet and app-binding
ensure steps are returned to the caller (and so retried by the queue); errors
of the stats-service and monitoring steps are surfaced as Warning events and
swallowed. -/
theorem create_error_classes (env : Env) (rd : Redis)
    (hprov : env.updateStatusProvisioning = Except.ok ()) :
    (∀ e, env.validateRedis = Except.error e →
      (create env rd).res = Except.ok () ∧
      Effect.eventWarning eventReasonInvalid ∈ (create env rd).trace) ∧
    (∀ e, env.validateRedis = Except.ok () →
      env.createGoverningService = Except.error e →
      (create env rd).res = Except.error e) ∧
    (∀ e, env.validateRedis = Except.ok () →
      env.createGoverningService = Except.ok () →
      rd.spec.mode = RedisMode.cluster →
      env.ensureRedisConfig = Except.error e →
      (create env rd).res = Except.error e) ∧
    (∀ e, env.validateRedis = Except.ok () →
      env.createGoverningService = Except.ok () →
      env.ensureRedisConfig = Except.ok () →
      env.ensureRBACStuff = Except.error e →
      (create env rd).res = Except.error e) ∧
    (∀ e, env.validateRedis = Except.ok () →
      env.createGoverningService = Except.ok () →
      env.ensureRedisConfig = Except.ok () →
      env.ensureRBACStuff = Except.ok () →
      env.ensureService = Except.error e →
      (create env rd).res = Except.error e) ∧
    (∀ e vt1, env.validateRedis = Except.ok () →
      env.createGoverningService = Except.ok () →
      env.ensureRedisConfig = Except.ok () →
      env.ensureRBACStuff = Except.ok () →
      env.ensureService = Except.ok vt1 →
      env.certSecretsExist = Except.ok true →
      env.ensureRedisNodes = Except.error e →
      (create env rd).res = Except.error e) ∧
    (∀ e vt1 vt2, env.validateRedis = Except.ok () →
      env.createGoverningService = Except.ok () →
      env.ensureRedisConfig = Except.ok () →
      env.ensureRBACStuff = Except.ok () →
      env.ensureService = Except.ok vt1 →
      env.certSecretsExist = Except.ok true →
      env.ensureRedisNodes = Except.ok vt2 →
      env.ensureAppBinding = Except.error e →
      (create env rd).res = Except.error e) ∧
    (∀ e vt1 vt2, env.validateRedis = Except.ok () →
      env.createGoverningService = Except.ok () →
      env.ensureRedisConfig = Except.ok () →
      env.ensureRBACStuff = Except.ok () →
      env.ensureService = Except.ok vt1 →
      env.certSecretsExist = Except.ok true →
      env.ensureRedisNodes = Except.ok vt2 →
      env.ensureAppBinding = Except.ok () →
      waitingForRestore rd = false →
      env.updateStatusReady = Except.ok () →
      env.ensureStatsService = Except.error e →
      (create env rd).res = Except.ok () ∧
      Effect.eventWarning eventReasonFailedToCreate ∈ (create env rd).trace) ∧
    (∀ e vt1 vt2, env.validateRedis = Except.ok () →
      env.createGoverningService = Except.ok () →
      env.ensureRedisConfig = Except.ok () →
      env.ensureRBACStuff = Except.ok () →
      env.ensureService = Except.ok vt1 →
      env.certSecretsExist = Except.ok true →
      env.ensureRedisNodes = Except.ok vt2 →
      env.ensureAppBinding = Except.ok () →
      waitingForRestore rd = false →
      env.updateStatusReady = Except.ok () →
      env.ensureStatsService = Except.ok () →
      env.manageMonitor = Except.error e →
      (create env rd).res = Except.ok () ∧
      Effect.eventWarning eventReasonFailedToCreate ∈ (create env rd).trace) := by
  refine ⟨?_, ?_, ?_, ?_, ?_, ?_, ?_, ?_, ?_⟩
  · intro e hv
    simp [create, hv]
  · intro e hv hg
    by_cases hph : rd.status.phase = Phase.empty <;>
      simp [create, createFromGoverning, hv, hprov, hg, hph, setPhase_spec]
  · intro e hv hg hmode hc
    by_cases hph : rd.status.phase = Phase.empty <;>
      simp [create, createFromGoverning, hv, hprov, hg, hmode, hc, hph,
        setPhase_spec]
  · intro e hv hg hc hr
    by_cases hph : rd.status.phase = Phase.empty <;>
      by_cases hmode : rd.spec.mode = RedisMode.cluster <;>
      simp [create, createFromGoverning, createFromConfig, hv, hprov, hg, hc,
        hr, hph, hmode, setPhase_spec]
  · intro e hv hg hc hr hsv
    by_cases hph : rd.status.phase = Phase.empty <;>
      by_cases hmode : rd.spec.mode = RedisMode.cluster <;>
      simp [create, createFromGoverning, createFromConfig, hv, hprov, hg, hc,
        hr, hsv, hph, hmode, setPhase_spec]
  · intro e vt1 hv hg hc hr hsv hcert hn
    by_cases hph : rd.status.phase = Phase.empty <;>
      by_cases hmode : rd.spec.mode = RedisMode.cluster <;>
      by_cases htls : rd.spec.tls = true <;>
      simp [create, createFromGoverning, createFromConfig, createFromTLS,
        createFromNodes, hv, hprov, hg, hc, hr, hsv, hcert, hn, hph, hmode,
        htls, setPhase_spec]
  · intro e vt1 vt2 hv hg hc hr hsv hcert hn hab
    by_cases hph : rd.status.phase = Phase.empty <;>
      by_cases hmode : rd.spec.mode = RedisMode.cluster <;>
      by_cases htls : rd.spec.tls = true <;>
      simp [create, createFromGoverning, createFromConfig, createFromTLS,
        createFromNodes, hv, hprov, hg, hc, hr, hsv, hcert, hn, hab, hph,
        hmode, htls, setPhase_spec]
  · intro e vt1 vt2 hv hg hc hr hsv hcert hn hab hwait hready hst
    by_cases hph : rd.status.phase = Phase.empty <;>
      by_cases hmode : rd.spec.mode = RedisMode.cluster <;>
      by_cases htls : rd.spec.tls = true <;>
      simp [create, createFromGoverning, createFromConfig, createFromTLS,
        createFromNodes, createFinalize, createMonitoring, hv, hprov, hg, hc,
        hr, hsv, hcert, hn, hab, hwait, hready, hst, hph, hmode, htls,
        setPhase_spec, setPhase_conditions, waitingForRestore_setPhase]
  · intro e vt1 vt2 hv hg hc hr hsv hcert hn hab hwait hready hst hmon
    by_cases hph : rd.status.phase = Phase.empty <;>
      by_cases hmode : rd.spec.mode = RedisMode.cluster <;>
      by_cases htls : rd.spec.tls = true <;>
      simp [create, createFromGoverning, createFromConfig, createFromTLS,
        createFromNodes, createFinalize, createMonitoring, hv, hprov, hg, hc,
        hr, hsv, hcert, hn, hab, hwait, hready, hst, hmon, hph, hmode, htls,
        setPhase_spec, setPhase_conditions, waitingForRestore_setPhase]

/-- Witness for C6: a failed spec validation is evented and swallowed. -/
theorem create_error_classes_witness :
    (create envBadSpec rdW).res = Except.ok () ∧
    Effect.eventWarning eventReasonInvalid ∈ (create envBadSpec rdW).trace :=
  (create_error_classes envBadSpec rdW rfl).1 "invalid spec" rfl

/-- In the non-deleted branch, the trace always starts with the
add-finalizer patch. -/
theorem runRedis_head_addFinalizer (env : Env) (key : String) (rd : Redis)
    (hget : env.getByKey = Except.ok (some rd))
    (hdel : rd.meta.deletionTimestamp.isSome = false) :
    (runRedis env key).trace.head? = some Effect.patchAddFinalizer := by
  rw [runRedis, hget]
  simp only [hdel, Bool.false_eq_true, if_false]
  rcases hpa : env.patchAddFinalizer with e | u
  · simp [hpa]
  · simp only [hpa]
    by_cases hps :
        isConditionTrue rd.status.conditions databasePaused = true
    · simp [hps]
    · by_cases hh : rd.spec.halted = true
      · rcases hhr : (halt env { rd with meta := addFinalizer rd.meta groupName }).res
          with e | u2 <;>
          simp [hps, hh, hhr]
      · rcases hkr : (create env { rd with meta := addFinalizer rd.meta groupName }).res
          with e | u2 <;>
          simp [hps, hh, hkr]

/-- `terminate` never records a finalizer patch itself. -/
theorem terminate_no_finalizer_patch (env : Env) (rd : Redis) :
    Effect.patchRemoveFinalizer ∉ (terminate env rd).trace := by
  intro hmem
  rcases terminate_trace_shape env rd _ hmem with h | h | h | h | h <;> simp at h

/-- Claim C1: `runRedis` implements the lifecycle dispatch table.  With a
deletion timestamp and the finalizer present it runs the termination engine
and patches the finalizer away exactly when that engine succeeds, propagating
its error otherwise; with a deletion timestamp and no finalizer it does
nothing; without a deletion timestamp it first patches the finalizer in, then
skips a paused object, and otherwise runs `halt` or `create` according to
`spec.halted`, propagating their result. -/
theorem runRedis_lifecycle_dispatch (env : Env) (key : String) (rd : Redis)
    (hget : env.getByKey = Except.ok (some rd)) :
    (rd.meta.deletionTimestamp.isSome = true →
      hasFinalizer rd.meta groupName = true →
      (∃ t, (runRedis env key).trace = (terminate env rd).trace ++ t) ∧
      (Effect.patchRemoveFinalizer ∈ (runRedis env key).trace ↔
        (terminate env rd).res = Except.ok ()) ∧
      (∀ e, (terminate env rd).res = Except.error e →
        (runRedis env key).res = Except.error e)) ∧
    (rd.meta.deletionTimestamp.isSome = true →
      hasFinalizer rd.meta groupName = false →
      (runRedis env key).res = Except.ok () ∧
      (runRedis env key).trace = []) ∧
    (rd.meta.deletionTimestamp.isSome = false →
      (runRedis env key).trace.head? = some Effect.patchAddFinalizer ∧
      (env.patchAddFinalizer = Except.ok () →
        (isConditionTrue rd.status.conditions databasePaused = true →
          (runRedis env key).res = Except.ok () ∧
          (runRedis env key).trace = [Effect.patchAddFinalizer]) ∧
        (isConditionTrue rd.status.conditions databasePaused = false →
          (rd.spec.halted = true →
            (∃ t, (runRedis env key).trace =
              Effect.patchAddFinalizer ::
                (halt env { rd with meta := addFinalizer rd.meta groupName }).trace
                ++ t) ∧
            (runRedis env key).res =
              (halt env { rd with meta := addFinalizer rd.meta groupName }).res) ∧
          (rd.spec.halted = false →
            (∃ t, (runRedis env key).trace =
              Effect.patchAddFinalizer ::
                (create env { rd with meta := addFinalizer rd.meta groupName }).trace
                ++ t) ∧
            (runRedis env key).res =
              (create env { rd with meta := addFinalizer rd.meta groupName }).res)))) := by
  refine ⟨fun hdel hfin => ?_, fun hdel hfin => ?_, fun hdel => ?_⟩
  · rw [runRedis, hget]
    simp only [hdel, if_true, hfin, ite_true]
    rcases ht : (terminate env rd).res with e | u
    · refine ⟨⟨[], by simp⟩, ?_, ?_⟩
      · simp [terminate_no_finalizer_patch env rd]
      · intro e2 he2
        simp only [Except.error.injEq] at he2
        simp [he2]
    · rcases hpr : env.patchRemoveFinalizer with e | u2 <;>
        refine ⟨⟨[Effect.patchRemoveFinalizer], by simp [ht, hpr]⟩, ?_, ?_⟩ <;>
        simp [ht, hpr]
  · rw [runRedis, hget]
    simp [hdel, hfin]
  · refine ⟨runRedis_head_addFinalizer env key rd hget hdel, fun hpa => ?_⟩
    rw [runRedis, hget]
    simp only [hdel, Bool.false_eq_true, if_false, hpa]
    refine ⟨fun hps => ?_, fun hps => ⟨fun hh => ?_, fun hh => ?_⟩⟩
    · simp [hps]
    · rcases hhr : (halt env { rd with meta := addFinalizer rd.meta groupName }).res
        with e | u2 <;>
        simp [hps, hh, hhr]
    · rcases hkr : (create env { rd with meta := addFinalizer rd.meta groupName }).res
        with e | u2 <;>
        simp [hps, hh, hkr]

/-- Witness for C1: a deleted object with no finalizer is left untouched. -/
theorem runRedis_lifecycle_dispatch_witness :
    (runRedis envDeletedNoFin "default/demo").res = Except.ok () ∧
    (runRedis envDeletedNoFin "default/demo").trace = [] :=
  (runRedis_lifecycle_dispatch envDeletedNoFin "default/demo" rdDeletedNoFin
    rfl).2.1 rfl rfl

/-- The finalize step leaves the phase alone or advances it to Ready. -/
theorem createFinalize_phase (env : Env) (rd : Redis) :
    (createFinalize env rd).obj.status.phase = rd.status.phase ∨
    (createFinalize env rd).obj.status.phase = Phase.ready := by
  by_cases hw : waitingForRestore rd = true
  · simp [createFinalize, hw]
  · rcases hrd : env.updateStatusReady with e | u <;>
      simp [createFinalize, hw, hrd, createMonitoring_obj, setReadyStatus_phase]

/-- The StatefulSet step leaves the phase alone or advances it to Ready. -/
theorem createFromNodes_phase (env : Env) (vt1 : Verb) (rd : Redis) :
    (createFromNodes env vt1 rd).obj.status.phase = rd.status.phase ∨
    (createFromNodes env vt1 rd).obj.status.phase = Phase.ready := by
  rcases hn : env.ensureRedisNodes with e | v
  · simp [createFromNodes, hn]
  · rcases hab : env.ensureAppBinding with e | u
    · simp [createFromNodes, hn, hab]
    · simpa [createFromNodes, hn, hab] using createFinalize_phase env rd

/-- The TLS gate leaves the phase alone or advances it to Ready. -/
theorem createFromTLS_phase (env : Env) (vt1 : Verb) (rd : Redis) :
    (createFromTLS env vt1 rd).obj.status.phase = rd.status.phase ∨
    (createFromTLS env vt1 rd).obj.status.phase = Phase.ready := by
  by_cases htls : rd.spec.tls = true
  · rcases hc : env.certSecretsExist with e | b
    · simp [createFromTLS, htls, hc]
    · rcases b with _ | _
      · simp [createFromTLS, htls, hc]
      · simpa [createFromTLS, htls, hc] using createFromNodes_phase env vt1 rd
  · simpa [createFromTLS, htls] using createFromNodes_phase env vt1 rd

/-- The RBAC/service segment leaves the phase alone or advances it to
Ready. -/
theorem createFromConfig_phase (env : Env) (rd : Redis) :
    (createFromConfig env rd).obj.status.phase = rd.status.phase ∨
    (createFromConfig env rd).obj.status.phase = Phase.ready := by
  rcases hr : env.ensureRBACStuff with e | u
  · simp [createFromConfig, hr]
  · rcases hs : env.ensureService with e | vt1
    · simp [createFromConfig, hr, hs]
    · simpa [createFromConfig, hr, hs] using createFromTLS_phase env vt1 rd

/-- The governing-service segment leaves the phase alone or advances it to
Ready. -/
theorem createFromGoverning_phase (env : Env) (rd : Redis) :
    (createFromGoverning env rd).obj.status.phase = rd.status.phase ∨
    (createFromGoverning env rd).obj.status.phase = Phase.ready := by
  rcases hg : env.createGoverningService with e | u
  · simp [createFromGoverning, hg]
  · by_cases hmode : rd.spec.mode = RedisMode.cluster
    · rcases hc : env.ensureRedisConfig with e | u2
      · simp [createFromGoverning, hg, hmode, hc]
      · simpa [createFromGoverning, hg, hmode, hc] using
          createFromConfig_phase env rd
    · simpa [createFromGoverning, hg, hmode] using createFromConfig_phase env rd

/-- One create pass leaves the phase alone, sets Provisioning on first
observation only, or advances to Ready. -/
theorem create_phase (env : Env) (rd : Redis) :
    (create env rd).obj.status.phase = rd.status.phase ∨
    ((create env rd).obj.status.phase = Phase.provisioning ∧
      rd.status.phase = Phase.empty) ∨
    (create env rd).obj.status.phase = Phase.ready := by
  rcases hv : env.validateRedis with e | u
  · simp [create, hv]
  · by_cases hph : rd.status.phase = Phase.empty
    · rcases hprov : env.updateStatusProvisioning with e | u2
      · simp [create, hv, hph, hprov]
      · rcases createFromGoverning_phase env (setPhase rd Phase.provisioning)
          with h | h
        · right; left
          constructor
          · simpa [create, hv, hph, hprov, setPhase_phase] using h
          · exact hph
        · right; right
          simpa [create, hv, hph, hprov] using h
    · rcases createFromGoverning_phase env rd with h | h
      · left
        simpa [create, hv, hph] using h
      · right; right
        simpa [create, hv, hph] using h

/-- One halt pass leaves the phase alone or sets it to Halted. -/
theorem halt_phase (env : Env) (db : Redis) :
    (halt env db).obj.status.phase = db.status.phase ∨
    (halt env db).obj.status.phase = Phase.halted := by
  by_cases hcond : db.spec.halted = true ∧
      db.spec.terminationPolicy ≠ TerminationPolicy.halt
  · simp [halt, hcond]
  · rcases hh : env.haltDatabase with e | u <;>
      rcases hw : env.waitUntilPaused with e2 | u2 <;>
      rcases hu : env.updateStatusHalted with e3 | u3 <;>
      simp [halt, hcond, hh, hw, hu, setHaltedStatus_phase]

/-- Claim C7 counterexample: a resume pass over a Halted object advances the
phase straight to Ready, a transition outside the transition set the spec
claims (and it does so although `status.observedGeneration` (3) disagrees
with the current generation (7) — no generation guard blocks the write). -/
theorem phase_halted_to_ready_counterexample :
    rdPhaseHalted.status.phase = Phase.halted ∧
    rdPhaseHalted.status.observedGeneration = 3 ∧
    rdPhaseHalted.meta.generation = 7 ∧
    ((runRedis envPhaseHalted "default/demo").obj.map
      fun r => r.status.phase) = some Phase.ready ∧
    specClaimedPhaseTransition Phase.halted Phase.ready = false :=
  ⟨rfl, rfl, rfl, rfl, rfl⟩

/-- Claim C7 (amended): across one `runRedis` pass, `status.phase` either
stays unchanged, moves empty → Provisioning (first observation), or moves to
Ready or Halted from any phase — in particular Halted → Ready happens on
resume; Provisioning is never written over a non-empty phase, so the phase
never regresses to Provisioning or empty.  The Ready and Halted writes set
`observedGeneration` to the current generation rather than being guarded by
comparing it. -/
theorem runRedis_phase_transitions (env : Env) (key : String) (rd rd' : Redis)
    (hget : env.getByKey = Except.ok (some rd))
    (hobj : (runRedis env key).obj = some rd') :
    phaseTransitionAllowed rd.status.phase rd'.status.phase = true ∧
    (rd'.status.phase = Phase.provisioning →
      rd.status.phase = Phase.empty ∨ rd.status.phase = Phase.provisioning) := by
  rw [runRedis, hget] at hobj
  by_cases hdel : rd.meta.deletionTimestamp.isSome = true
  · simp only [hdel, if_true] at hobj
    by_cases hfin : hasFinalizer rd.meta groupName = true
    · simp only [hfin, ite_true] at hobj
      rcases ht : (terminate env rd).res with e | u <;>
        simp only [ht] at hobj
      · simp only [Option.some.injEq] at hobj
        rw [← hobj, terminate_obj]
        exact ⟨by simp [phaseTransitionAllowed], fun h => Or.inr (by rw [← h])⟩
      · rcases hpr : env.patchRemoveFinalizer with e | u2 <;>
          simp only [hpr, Option.some.injEq] at hobj <;>
          rw [← hobj]
        · rw [terminate_obj]
          exact ⟨by simp [phaseTransitionAllowed], fun h => Or.inr (by rw [← h])⟩
        · have hst : ({ terminate env rd |>.obj with
              meta := removeFinalizer (terminate env rd).obj.meta groupName } :
                Redis).status.phase = rd.status.phase := by
            rw [show ({ terminate env rd |>.obj with
              meta := removeFinalizer (terminate env rd).obj.meta groupName } :
                Redis).status = (terminate env rd).obj.status from rfl,
              terminate_obj]
          rw [hst]
          exact ⟨by simp [phaseTransitionAllowed], fun h => Or.inr (by rw [← h])⟩
    · simp only [hfin, Bool.false_eq_true, if_false, Option.some.injEq] at hobj
      rw [← hobj]
      exact ⟨by simp [phaseTransitionAllowed], fun h => Or.inr (by rw [← h])⟩
  · simp only [hdel, Bool.false_eq_true, if_false] at hobj
    rcases hpa : env.patchAddFinalizer with e | u <;>
      simp only [hpa, Option.some.injEq] at hobj
    · rw [← hobj]
      exact ⟨by simp [phaseTransitionAllowed], fun h => Or.inr (by rw [← h])⟩
    · by_cases hps : isConditionTrue rd.status.conditions databasePaused = true
      · simp only [hps, ite_true, Option.some.injEq] at hobj
        rw [← hobj]
        exact ⟨by simp [phaseTransitionAllowed], fun h => Or.inr (by rw [← h])⟩
      · by_cases hh : rd.spec.halted = true
        · simp only [hps, Bool.false_eq_true, if_false, hh, ite_true] at hobj
          rcases hhr : (halt env { rd with meta := addFinalizer rd.meta groupName }).res
              with e | u2 <;>
            simp only [hhr, Option.some.injEq] at hobj <;>
            rw [← hobj] <;>
            rcases halt_phase env { rd with meta := addFinalizer rd.meta groupName }
              with h | h <;>
            rw [h]
          · exact ⟨by simp [phaseTransitionAllowed], fun h2 => Or.inr (by rw [← h2])⟩
          · exact ⟨by simp [phaseTransitionAllowed], fun h2 => by simp at h2⟩
          · exact ⟨by simp [phaseTransitionAllowed], fun h2 => Or.inr (by rw [← h2])⟩
          · exact ⟨by simp [phaseTransitionAllowed], fun h2 => by simp at h2⟩
        · simp only [hps, hh, Bool.false_eq_true, if_false] at hobj
          rcases hkr : (create env { rd with meta := addFinalizer rd.meta groupName }).res
              with e | u2 <;>
            simp only [hkr, Option.some.injEq] at hobj <;>
            rw [← hobj] <;>
            rcases create_phase env { rd with meta := addFinalizer rd.meta groupName }
              with h | ⟨h, hmt⟩ | h
          · rw [h]
            exact ⟨by simp [phaseTransitionAllowed], fun h2 => Or.inr (by rw [← h2])⟩
          · rw [h]
            refine ⟨?_, fun h2 => Or.inl hmt⟩
            rw [show ({ rd with meta := addFinalizer rd.meta groupName } :
              Redis).status.phase = rd.status.phase from rfl] at hmt
            simp [phaseTransitionAllowed, hmt]
          · rw [h]
            exact ⟨by simp [phaseTransitionAllowed], fun h2 => by simp at h2⟩
          · rw [h]
            exact ⟨by simp [phaseTransitionAllowed], fun h2 => Or.inr (by rw [← h2])⟩
          · rw [h]
            refine ⟨?_, fun h2 => Or.inl hmt⟩
            rw [show ({ rd with meta := addFinalizer rd.meta groupName } :
              Redis).status.phase = rd.status.phase from rfl] at hmt
            simp [phaseTransitionAllowed, hmt]
          · rw [h]
            exact ⟨by simp [phaseTransitionAllowed], fun h2 => by simp at h2⟩

/-- Witness for C7\x27s amended theorem: the concrete resume pass. -/
theorem runRedis_phase_transitions_witness :
    phaseTransitionAllowed rdPhaseHalted.status.phase
      rdPhaseHaltedFinal.status.phase = true ∧
    (rdPhaseHaltedFinal.status.phase = Phase.provisioning →
      rdPhaseHalted.status.phase = Phase.empty ∨
      rdPhaseHalted.status.phase = Phase.provisioning) :=
  runRedis_phase_transitions envPhaseHalted "default/demo" rdPhaseHalted
    rdPhaseHaltedFinal rfl rfl

end RedisOperator
